import Mathlib

/-!
Verification of the photo-submission and AI-validation pipeline of the
photohunter backend (Django application under `src/api/`).

The development shallowly embeds the relevant Python code:

* `PyVal` models Python values (as produced by `json.loads` and carried in
  the `dict`s that flow through the pipeline); Python `float`s are modelled
  as rationals (`ℚ`), which is exact for every constant the code manipulates
  (0.0, 0.5, 1.0, division by 100).
* The Response Interpreter (`_parse_ai_response`, `_parse_text_response`,
  `_get_fallback_response` of `api/services/photo_validation_service.py`)
  is embedded as executable functions over `List Char` / `String`,
  including a model of the two regular expressions the source uses and an
  executable JSON parser standing for Python's `json.loads`.
* The Blob Store Gateway (`api/services/s3_service.py`) is embedded with an
  explicit trace of upload attempts so that the ACL-retry behaviour is
  observable.
* The Submission Orchestrator (`submit_photo` of `api/views.py`) is embedded
  as a function from an explicit database/storage state and the external
  inputs (comparator text, upload key, transaction outcome) to the resulting
  state and HTTP response.
-/

namespace PhotoHunter

/-- Model of a Python value, as produced by `json.loads` and carried in the
response dictionaries of the validation pipeline.  Python floats and ints are
both modelled as rationals. -/
inductive PyVal where
  | pnone
  | pbool (b : Bool)
  | pnum (q : ℚ)
  | pstr (s : String)
  | plist (xs : List PyVal)
  | pdict (fields : List (String × PyVal))
deriving Repr

/-- A Python `dict` with string keys, in insertion order. -/
abbrev PyDict := List (String × PyVal)

/-- `d.get(k, default)` on a Python dict. -/
def dGet (d : PyDict) (k : String) (default : PyVal) : PyVal :=
  match d.find? (fun p => p.1 == k) with
  | some p => p.2
  | none => default

/-- The keys of a Python dict, in order. -/
def dKeys (d : PyDict) : List String := d.map Prod.fst

/-- `d.update(upd)` on a Python dict: existing keys keep their position and
receive the new value; genuinely new keys are appended in `upd` order. -/
def dUpdate (d upd : PyDict) : PyDict :=
  (d.map (fun p =>
    match upd.find? (fun q => q.1 == p.1) with
    | some q => (p.1, q.2)
    | none => p)) ++
  upd.filter (fun q => (d.find? (fun p => p.1 == q.1)).isNone)

/-- `d.pop(k, None)` on a Python dict (the resulting dict). -/
def dPop (d : PyDict) (k : String) : PyDict :=
  d.filter (fun p => p.1 != k)

/-- Python truthiness of a value (`bool(v)`). -/
def pyTruthy : PyVal → Bool
  | .pnone => false
  | .pbool b => b
  | .pnum q => q != 0
  | .pstr s => s.length != 0
  | .plist xs => !xs.isEmpty
  | .pdict fields => !fields.isEmpty

/-! ### Character and list utilities used by the regex models -/

/-- Python's `\s` class over the ASCII range (space, tab, LF, CR, FF, VT). -/
def isPySpace (c : Char) : Bool :=
  [' ', '\t', '\n', '\x0d', '\x0c', '\x0b'].contains c

/-- Does `hay` start with `needle`?  (Char-list version.) -/
def startsWithL (needle hay : List Char) : Bool :=
  match needle, hay with
  | [], _ => true
  | _ :: _, [] => false
  | n :: ns, h :: hs => if n == h then startsWithL ns hs else false

/-- Does `hay` contain `needle` as a contiguous substring?  Models Python's
`needle in hay`. -/
def containsSub (needle : List Char) : List Char → Bool
  | [] => startsWithL needle []
  | c :: rest => startsWithL needle (c :: rest) || containsSub needle rest

/-- Index of the first occurrence of `c`, if any. -/
def firstIdx (c : Char) : List Char → Option Nat
  | [] => none
  | x :: xs =>
    if x == c then some 0
    else match firstIdx c xs with
      | some i => some (i + 1)
      | none => none

/-- Index of the last occurrence of `c`, if any. -/
def lastIdx (c : Char) (cs : List Char) : Option Nat :=
  match firstIdx c cs.reverse with
  | some i => some (cs.length - 1 - i)
  | none => none

/-! ### The Response Interpreter (photo_validation_service.py) -/

/-- Model of `re.search(r'\{.*\}', content, re.DOTALL)`: with a greedy `.*`
that may span newlines, the leftmost-longest match runs from the first `{`
to the last `}` of the whole text, provided the latter comes strictly after
the former.  Returns the matched span (`match.group(0)`). -/
def jsonSpan (cs : List Char) : Option (List Char) :=
  match firstIdx '{' cs, lastIdx '}' cs with
  | some i, some j => if i < j then some ((cs.drop i).take (j - i + 1)) else none
  | _, _ => none

/-- Value of a digit character (code point minus 48). -/
def digitVal (c : Char) : Nat := c.toNat - 48

/-- Accumulator loop for reading a decimal digit string. -/
def digitsToNatAux (acc : Nat) : List Char → Nat
  | [] => acc
  | d :: ds => digitsToNatAux (10 * acc + digitVal d) ds

/-- Natural number denoted by a digit string (most significant first). -/
def digitsToNat (ds : List Char) : Nat := digitsToNatAux 0 ds

/-- Rational denoted by a decimal literal of the shape `\d+\.?\d*`
(as captured by the score regexes and consumed by Python's `float`). -/
def decimalToRat (ds : List Char) : ℚ :=
  let intPart := ds.takeWhile (fun c => c.isDigit)
  let rest := ds.dropWhile (fun c => c.isDigit)
  let fracPart := match rest with
    | '.' :: fs => fs.takeWhile (fun c => c.isDigit)
    | _ => []
  (digitsToNat intPart : ℚ) + (digitsToNat fracPart : ℚ) / ((10 : ℚ) ^ fracPart.length)

/-- Greedy match of `(\d+\.?\d*)` at the head of `cs`: one or more digits,
an optional dot, zero or more digits.  Returns the captured characters. -/
def scanNumber (cs : List Char) : Option (List Char) :=
  let ds := cs.takeWhile (fun c => c.isDigit)
  if ds.isEmpty then none
  else
    match cs.drop ds.length with
    | '.' :: rest => some (ds ++ '.' :: rest.takeWhile (fun c => c.isDigit))
    | _ => some ds

/-- Attempt to match `kw[:\s]+(\d+\.?\d*)` (with `kw` compared
case-insensitively) at the head of `cs`; returns the captured number. -/
def matchScoreAt (kw : List Char) (cs : List Char) : Option (List Char) :=
  if startsWithL kw (cs.map Char.toLower) then
    let rest := cs.drop kw.length
    let seps := rest.takeWhile (fun c => c == ':' || isPySpace c)
    if seps.isEmpty then none
    else scanNumber (rest.drop seps.length)
  else none

/-- Model of `re.search(kw + r'[:\s]+(\d+\.?\d*)', content, re.IGNORECASE)`:
try to match at each start position from the left; the first position at
which the whole pattern matches wins, and the captured group is converted by
`float`.  (Backtracking inside `[:\s]+` can never rescue a failed match,
because no separator character is a digit, so taking the maximal separator
run is equivalent.) -/
def searchScore (kw : List Char) : List Char → Option ℚ
  | [] => none
  | c :: rest =>
    match matchScoreAt kw (c :: rest) with
    | some ds => some (decimalToRat ds)
    | none => searchScore kw rest

/-- Keyword sets of `_parse_text_response` deciding `is_valid`. -/
def validWords : List (List Char) :=
  [String.toList "valid", String.toList "match", String.toList "same", String.toList "correct"]

/-- Keyword set signalling an invalid submission. -/
def invalidWords : List (List Char) :=
  [String.toList "invalid", String.toList "different", String.toList "not match",
   String.toList "incorrect"]

/-- `any(word in content.lower() for word in ws)`. -/
def containsAnyWord (ws : List (List Char)) (lowered : List Char) : Bool :=
  ws.any (fun w => containsSub w lowered)

/-- Embedding of `_parse_text_response`: heuristic extraction used when no
`{...}` span is found.  Scores default to 0.5 and are divided by 100 when
the extracted number exceeds 1.0; validity comes from keyword presence
(checked on the lowercased text); notes are the full raw text. -/
def parse_text_response (content : String) : PyDict :=
  let cs := content.toList
  let lowered := cs.map Char.toLower
  let similarity_score : ℚ :=
    match searchScore (String.toList "similarity") cs with
    | some q => if 1 < q then q / 100 else q
    | none => 1 / 2
  let confidence_score : ℚ :=
    match searchScore (String.toList "confidence") cs with
    | some q => if 1 < q then q / 100 else q
    | none => 1 / 2
  let is_valid : Bool :=
    if containsAnyWord validWords lowered then true
    else if containsAnyWord invalidWords lowered then false
    else false
  [("similarity_score", .pnum similarity_score),
   ("confidence_score", .pnum confidence_score),
   ("is_valid", .pbool is_valid),
   ("notes", .pstr content),
   ("key_matches", .plist []),
   ("key_differences", .plist [])]

/-- Embedding of `_get_fallback_response(reference_image_url,
submitted_image_url)`: the fixed fail-closed verdict dictionary. -/
def get_fallback_response (reference_image_url submitted_image_url : PyVal) : PyDict :=
  [("similarity_score", .pnum 0),
   ("confidence_score", .pnum 0),
   ("is_valid", .pbool false),
   ("notes", .pstr "AI validation failed - manual review required"),
   ("key_matches", .plist []),
   ("key_differences", .plist []),
   ("prompt", .pstr "Validation failed"),
   ("ai_response", .pstr "AI validation service unavailable"),
   ("reference_image_url", reference_image_url),
   ("submitted_image_url", submitted_image_url)]

/-! ### An executable JSON parser, standing for Python's `json.loads`.
Strict JSON: no trailing commas, no leading zeros, fractions and exponents
require digits, control characters inside strings must be escaped.
Duplicate object keys keep the first key position with the last value, as a
Python dict built by repeated assignment does.  (Two stdlib extensions are
not modelled, since no rational value exists for them and no claim touches
them: the `Infinity`/`NaN` literals; likewise surrogate-pair decoding of
`\uXXXX` escapes.) -/

/-- The four JSON whitespace characters. -/
def isJsonWs (c : Char) : Bool := [' ', '\t', '\n', '\x0d'].contains c

/-- Skip JSON whitespace (space, tab, LF, CR). -/
def skipWs (cs : List Char) : List Char := cs.dropWhile isJsonWs

/-- Hexadecimal digit value, computed on code points: digits, then the
lowercase and the uppercase letter ranges. -/
def hexVal (c : Char) : Option Nat :=
  let n := c.toNat
  if 48 ≤ n && n ≤ 57 then some (n - 48)
  else if 97 ≤ n && n ≤ 102 then some (n - 87)
  else if 65 ≤ n && n ≤ 70 then some (n - 55)
  else none

/-- Parse the body of a JSON string literal, after the opening quote;
returns the decoded characters and the remainder after the closing quote. -/
def parseJsonStrBody : List Char → Option (List Char × List Char)
  | [] => none
  | '"' :: rest => some ([], rest)
  | ['\\'] => none
  | '\\' :: e :: r1 =>
    if e == 'u' then
      match r1 with
      | h1 :: h2 :: h3 :: h4 :: r2 =>
        match hexVal h1, hexVal h2, hexVal h3, hexVal h4 with
        | some a, some b, some c, some d =>
          (fun p => (Char.ofNat (4096 * a + 256 * b + 16 * c + d) :: p.1, p.2)) <$>
            parseJsonStrBody r2
        | _, _, _, _ => none
      | _ => none
    else
      let simple : Option Char :=
        if e == '"' then some '"'
        else if e == '\\' then some '\\'
        else if e == '/' then some '/'
        else if e == 'b' then some '\x08'
        else if e == 'f' then some '\x0c'
        else if e == 'n' then some '\n'
        else if e == 'r' then some '\x0d'
        else if e == 't' then some '\t'
        else none
      match simple with
      | some c => (fun p => (c :: p.1, p.2)) <$> parseJsonStrBody r1
      | none => none
  | c :: rest =>
    if c.toNat < 32 then none
    else (fun p => (c :: p.1, p.2)) <$> parseJsonStrBody rest

/-- Parse a JSON exponent suffix (after the `e`/`E`); returns the scale
factor. -/
def parseJsonExp (rest : List Char) : Option (ℚ × List Char) :=
  let (negExp, r1) : Bool × List Char :=
    match rest with
    | '+' :: r => (false, r)
    | '-' :: r => (true, r)
    | _ => (false, rest)
  let es := r1.takeWhile (fun c => c.isDigit)
  if es.isEmpty then none
  else
    let e := digitsToNat es
    some (if negExp then 1 / (10 : ℚ) ^ e else (10 : ℚ) ^ e, r1.drop es.length)

/-- Parse the magnitude of a JSON number (integer part, optional fraction,
optional exponent; leading zeros rejected). -/
def parseJsonNumMag (cs1 : List Char) : Option (ℚ × List Char) :=
  let ds := cs1.takeWhile (fun c => c.isDigit)
  if ds.isEmpty then none
  else if 1 < ds.length && ds.headD '1' == '0' then none
  else
    let cs2 := cs1.drop ds.length
    let intVal : ℚ := (digitsToNat ds : ℚ)
    let fracStep : Option (ℚ × List Char) :=
      match cs2 with
      | '.' :: rest =>
        let fs := rest.takeWhile (fun c => c.isDigit)
        if fs.isEmpty then none
        else some ((digitsToNat fs : ℚ) / (10 : ℚ) ^ fs.length, rest.drop fs.length)
      | _ => some (0, cs2)
    match fracStep with
    | none => none
    | some (fracVal, cs3) =>
      let expStep : Option (ℚ × List Char) :=
        match cs3 with
        | 'e' :: rest => parseJsonExp rest
        | 'E' :: rest => parseJsonExp rest
        | _ => some (1, cs3)
      match expStep with
      | none => none
      | some (expFactor, cs4) => some ((intVal + fracVal) * expFactor, cs4)

/-- Parse a JSON number at the head of the input (sign wrapper around the
magnitude parser). -/
def parseJsonNum (cs : List Char) : Option (PyVal × List Char) :=
  match cs with
  | '-' :: rest => (fun p => (PyVal.pnum (-p.1), p.2)) <$> parseJsonNumMag rest
  | _ => (fun p => (PyVal.pnum p.1, p.2)) <$> parseJsonNumMag cs

mutual

/-- Parse one JSON value; `fuel` bounds the recursion depth (always given
sufficient fuel by `json_loads`). -/
def parseJsonVal : Nat → List Char → Option (PyVal × List Char)
  | 0, _ => none
  | fuel + 1, cs =>
    match skipWs cs with
    | [] => none
    | '{' :: rest => parseJsonObj fuel rest []
    | '[' :: rest => parseJsonArr fuel rest []
    | '"' :: rest =>
      (fun p => (PyVal.pstr (String.mk p.1), p.2)) <$> parseJsonStrBody rest
    | 't' :: rest =>
      if startsWithL (String.toList "rue") rest then some (.pbool true, rest.drop 3) else none
    | 'f' :: rest =>
      if startsWithL (String.toList "alse") rest then some (.pbool false, rest.drop 4) else none
    | 'n' :: rest =>
      if startsWithL (String.toList "ull") rest then some (.pnone, rest.drop 3) else none
    | cs1 => parseJsonNum cs1

/-- Parse the members of a JSON object, after the opening brace (or after a
separating comma), accumulating into `acc`. -/
def parseJsonObj : Nat → List Char → PyDict → Option (PyVal × List Char)
  | 0, _, _ => none
  | fuel + 1, cs, acc =>
    match skipWs cs with
    | '}' :: rest => if acc.isEmpty then some (.pdict [], rest) else none
    | '"' :: rest =>
      match parseJsonStrBody rest with
      | none => none
      | some (key, r1) =>
        match skipWs r1 with
        | ':' :: r2 =>
          match parseJsonVal fuel r2 with
          | none => none
          | some (v, r3) =>
            let acc1 := dUpdate acc [(String.mk key, v)]
            match skipWs r3 with
            | ',' :: r4 => parseJsonObj fuel r4 acc1
            | '}' :: r4 => some (.pdict acc1, r4)
            | _ => none
        | _ => none
    | _ => none

/-- Parse the items of a JSON array, after the opening bracket (or after a
separating comma), accumulating into `acc`. -/
def parseJsonArr : Nat → List Char → List PyVal → Option (PyVal × List Char)
  | 0, _, _ => none
  | fuel + 1, cs, acc =>
    match skipWs cs with
    | ']' :: rest => if acc.isEmpty then some (.plist [], rest) else none
    | cs1 =>
      match parseJsonVal fuel cs1 with
      | none => none
      | some (v, r1) =>
        match skipWs r1 with
        | ',' :: r2 => parseJsonArr fuel r2 (acc ++ [v])
        | ']' :: r2 => some (.plist (acc ++ [v]), r2)
        | _ => none

end

/-- Model of Python's `json.loads`: parse one JSON value and require that
only whitespace remains. -/
def json_loads (s : String) : Option PyVal :=
  let cs := s.toList
  match parseJsonVal (cs.length + 1) cs with
  | some (v, rest) => if (skipWs rest).isEmpty then some v else none
  | none => none

/-- Model of Python `float(str)`: optional surrounding whitespace and sign,
then decimal digits with an optional fraction and exponent.  (`inf`/`nan`
literals are not modelled: they have no rational value and no claim touches
them.) -/
def pyFloatOfStr (s : String) : Option ℚ :=
  let cs := ((s.toList.dropWhile isPySpace).reverse.dropWhile isPySpace).reverse
  let signed : ℚ × List Char :=
    match cs with
    | '+' :: r => (1, r)
    | '-' :: r => (-1, r)
    | _ => (1, cs)
  let sign := signed.1
  let cs1 := signed.2
  let ip := cs1.takeWhile (fun c => c.isDigit)
  let cs2 := cs1.drop ip.length
  let (fracDigits, cs3) : List Char × List Char :=
    match cs2 with
    | '.' :: r => (r.takeWhile (fun c => c.isDigit), r.drop (r.takeWhile (fun c => c.isDigit)).length)
    | _ => ([], cs2)
  if ip.isEmpty && fracDigits.isEmpty then none
  else
    let mant : ℚ := (digitsToNat ip : ℚ) + (digitsToNat fracDigits : ℚ) / (10 : ℚ) ^ fracDigits.length
    let expStep : Option (ℚ × List Char) :=
      match cs3 with
      | 'e' :: r => parseJsonExp r
      | 'E' :: r => parseJsonExp r
      | _ => some (1, cs3)
    match expStep with
    | none => none
    | some (f, cs4) => if cs4.isEmpty then some (sign * mant * f) else none

/-- Model of Python's `float(v)` applied to a decoded JSON value: numbers and
booleans convert, numeric strings convert, everything else
(`None`, lists, dicts) raises `TypeError` (modelled as `none`). -/
def pyFloat : PyVal → Option ℚ
  | .pnum q => some q
  | .pbool b => some (if b then 1 else 0)
  | .pstr s => pyFloatOfStr s
  | _ => none

/-- The JSON branch of `_parse_ai_response`: `json.loads` the extracted span
and read the six verdict fields with their defaults.  `none` models any
exception (`json.JSONDecodeError` from the parse, `TypeError`/`ValueError`
from the `float(...)` conversions); a successfully parsed span necessarily
starts with `{`, so a non-dict result cannot occur (kept for totality). -/
def interpretJson (span : String) : Option PyDict :=
  match json_loads span with
  | some (.pdict fields) =>
    match pyFloat (dGet fields "similarity_score" (.pnum 0)),
          pyFloat (dGet fields "confidence_score" (.pnum 0)) with
    | some sim, some conf =>
      some [("similarity_score", .pnum sim),
            ("confidence_score", .pnum conf),
            ("is_valid", .pbool (pyTruthy (dGet fields "is_valid" (.pbool false)))),
            ("notes", dGet fields "notes" (.pstr "AI validation completed")),
            ("key_matches", dGet fields "key_matches" (.plist [])),
            ("key_differences", dGet fields "key_differences" (.plist []))]
    | _, _ => none
  | some _ => none
  | none => none

/-- Embedding of `_parse_ai_response`: extract the greedy `{...}` span and
interpret it as JSON; if anything in that attempt raises, return the fixed
fallback dictionary (`_get_fallback_response()` with both URLs `None`); if
no span exists at all, use the heuristic `_parse_text_response`. -/
def parse_ai_response (content : String) : PyDict :=
  match jsonSpan content.toList with
  | some span =>
    match interpretJson (String.mk span) with
    | some d => d
    | none => get_fallback_response .pnone .pnone
  | none => parse_text_response content

/-! ### The Blob Store Gateway (s3_service.py) -/

/-- Outcome of one `upload_fileobj` call against the object store. -/
inductive PutResult where
  | ok
  | clientError (code : String)

/-- One upload attempt as issued by `upload_file`: the access-control value
applied (if any) and the payload bytes of the fresh buffer it was given. -/
structure Attempt where
  acl : Option String
  payload : List Nat
deriving Repr, DecidableEq

/-- The enumerated permission/ACL-rejection error codes that trigger the
no-ACL retry in `upload_file`. -/
def aclRetryCodes : List String :=
  ["AccessDenied", "InvalidRequest", "AccessControlListNotSupported",
   "InvalidBucketAclWithObjectOwnership"]

/-- Embedding of `S3Service.upload_file`, with the store's behaviour
abstracted as a function `put` from the issued attempt to its outcome and
the sequence of issued attempts recorded in the result.  The payload is
buffered once (`file_bytes = file_obj.read()`); each attempt gets a fresh
`BytesIO` over those same bytes.  `aclValue = none` models a falsy
configured access-control setting (`AWS_DEFAULT_ACL` absent or empty), for
which no ACL is applied and no retry happens.  `Except.error` is the
`StorageError` (`Exception("Failed to upload file to S3")`) raised after a
non-retryable failure or a failed retry. -/
def upload_file (put : Attempt → PutResult) (aclValue : Option String)
    (fileBytes : List Nat) (publicBaseDomain folder uuid fileExtension : String) :
    Except String (String × List Attempt) :=
  let filename := folder ++ "/" ++ uuid ++ "." ++ fileExtension
  let url := "https://" ++ publicBaseDomain ++ "/" ++ filename
  let firstAttempt : Attempt := ⟨aclValue, fileBytes⟩
  match put firstAttempt with
  | .ok => .ok (url, [firstAttempt])
  | .clientError code =>
    if aclValue.isSome && aclRetryCodes.contains code then
      let retryAttempt : Attempt := ⟨none, fileBytes⟩
      match put retryAttempt with
      | .ok => .ok (url, [firstAttempt, retryAttempt])
      | .clientError _ => .error "Failed to upload file to S3"
    else .error "Failed to upload file to S3"

/-- Unreserved URL characters (plus `/`), which the presigner leaves
unencoded in the key path. -/
def isUrlSafeChar (c : Char) : Bool :=
  c.isAlphanum || c == '-' || c == '.' || c == '_' || c == '~' || c == '/'

/-- Upper-case hexadecimal digit for a value below 16. -/
def hexDigitChar (n : Nat) : Char :=
  if n < 10 then Char.ofNat ('0'.toNat + n) else Char.ofNat ('A'.toNat + (n - 10))

/-- Percent-encode a key for use in a URL path, leaving unreserved
characters and `/` intact. -/
def percentEncodeKey (key : String) : String :=
  String.mk (key.toList.foldr
    (fun c acc =>
      if isUrlSafeChar c then c :: acc
      else '%' :: hexDigitChar (c.toNat / 16 % 16) :: hexDigitChar (c.toNat % 16) :: acc)
    [])

/-- Modelled from the spec: `generate_presigned_get_url` delegates to the
external object-store client (`boto3 generate_presigned_url`), which is not
part of this repository.  Per its documented URL shape, the presigned GET
URL is the virtual-hosted bucket endpoint followed by the percent-encoded
key path and a signature query string carrying the expiry. -/
def generate_presigned_get_url (publicBaseDomain key : String) (expiration : Nat) : String :=
  "https://" ++ publicBaseDomain ++ "/" ++ percentEncodeKey key ++
    "?X-Amz-Algorithm=AWS4-HMAC-SHA256&X-Amz-Expires=" ++ toString expiration ++
    "&X-Amz-Signature=sig"

/-- Drop everything up to and including the first occurrence of `"://"`. -/
def dropScheme : List Char → Option (List Char)
  | ':' :: '/' :: '/' :: rest => some rest
  | _ :: rest => dropScheme rest
  | [] => none

/-- The path component of a URL, as `urllib.parse.urlparse(url).path`
returns it for the URLs this service handles: for an absolute URL, the part
from the first `/` after the authority up to `?` or `#`; for an input with
no `://`, the whole input up to `?` or `#` (percent-escapes are not
decoded). -/
def urlPathChars (cs : List Char) : List Char :=
  let afterScheme : List Char :=
    match dropScheme cs with
    | some rest => rest.dropWhile (fun c => c != '/')
    | none => cs
  afterScheme.takeWhile (fun c => c != '?' && c != '#')

/-- Embedding of `S3Service.extract_key_from_url`: the URL's path with any
leading slash removed. -/
def extract_key_from_url (url : String) : String :=
  match urlPathChars url.toList with
  | '/' :: rest => String.mk rest
  | p => String.mk p

/-- Python `str.startswith`. -/
def strStartsWith (s pre : String) : Bool := startsWithL pre.toList s.toList

/-! ### The AI Comparator Client prompt (photo_validation_service.py) -/

/-- First instruction block of `_create_validation_prompt`. -/
def promptIntroText : String :=
  "You are an expert photo validation AI. Your task is to compare two images and determine if they show the same subject or location.\n\nPlease analyze both images and provide a detailed comparison. Consider:\n1. Are they showing the same subject/location?\n2. Are the architectural features, landmarks, or key elements the same?\n3. Is the lighting, angle, or perspective similar enough to confirm it\x27s the same place?\n4. Are there any obvious differences that suggest they\x27re different locations?\n"

/-- Closing instruction block of `_create_validation_prompt`, with the
challenge description interpolated. -/
def promptFormatText (description : String) : String :=
  "PHOTO HUNT DESCRIPTION: " ++ description ++
  "\n\nRespond in the following JSON format:\n\x7b\n    \"similarity_score\": 0.85,  // Score from 0.0 to 1.0 (1.0 = identical)\n    \"confidence_score\": 0.92,  // Your confidence in the assessment (0.0 to 1.0)\n    \"is_valid\": true,          // Whether the submitted photo matches the reference\n    \"notes\": \"The images show the same architectural landmark with similar lighting and angle. The key features match the description perfectly.\",\n    \"key_matches\": [\"Gothic architecture\", \"Stained glass windows\", \"Flying buttresses\"],\n    \"key_differences\": [\"Slight difference in lighting\", \"Different time of day\"]\n\x7d\n\nBe strict but fair in your assessment. The photo should clearly show the same subject/location as the reference image."

/-- Embedding of `_create_validation_prompt`: the multimodal message content
(a Python list of content blocks) sent to the comparator; it embeds both
access URLs verbatim. -/
def create_validation_prompt (reference_image_url submitted_image_url description : String) :
    PyVal :=
  .plist
    [.pdict [("type", .pstr "text"), ("text", .pstr promptIntroText)],
     .pdict [("type", .pstr "image_url"),
             ("image_url", .pdict [("url", .pstr reference_image_url)])],
     .pdict [("type", .pstr "image_url"),
             ("image_url", .pdict [("url", .pstr submitted_image_url)])],
     .pdict [("type", .pstr "text"), ("text", .pstr (promptFormatText description))]]

/-- Embedding of `PhotoValidationService.validate_photo`: build the prompt,
invoke the comparator once, interpret its raw text, and annotate the result
with the prompt, raw response and both (time-limited) access URLs.  The
external LLM call is abstracted by two inputs: `llmRaises` (any
network/auth/timeout failure of the single synchronous call) and `aiRaw`
(the raw text returned otherwise).  On failure the fixed fallback dict is
returned with the two access URLs filled in. -/
def validate_photo (llmRaises : Bool) (aiRaw : String)
    (reference_image_url submitted_image_url description : String) : PyDict :=
  if llmRaises then
    get_fallback_response (.pstr reference_image_url) (.pstr submitted_image_url)
  else
    dUpdate (parse_ai_response aiRaw)
      [("prompt", create_validation_prompt reference_image_url submitted_image_url description),
       ("ai_response", .pstr aiRaw),
       ("reference_image_url", .pstr reference_image_url),
       ("submitted_image_url", .pstr submitted_image_url)]

/-! ### The Completion/Validation Ledger (api/models.py) -/

/-- A `PhotoHunt` row (the fields the submission pipeline reads). -/
structure Challenge where
  id : Nat
  description : String
  reference_image : String
  is_active : Bool

/-- A `PhotoHuntCompletion` row.  The database enforces
`unique_together = ['user', 'photohunt']`, so rows are functionally keyed by
that pair; score and notes hold whatever Python value the verdict dict
supplied. -/
structure Completion where
  user : Nat
  photohunt : Nat
  submitted_image : String
  validation_score : PyVal
  is_valid : Bool
  validation_notes : PyVal

/-- A `PhotoValidation` row.  It is one-to-one with a `Completion`, which is
itself unique per (user, photohunt), so the row is keyed by that pair. -/
structure VRecord where
  user : Nat
  photohunt : Nat
  reference_image_url : String
  submitted_image_url : String
  similarity_score : PyVal
  confidence_score : PyVal
  validation_prompt : PyVal
  ai_response : PyVal
  is_approved : Bool

/-- The durable relational state touched by the submission pipeline:
completions, validation records, and the per-user profile counter
(`UserProfile.total_completions`). -/
structure Ledger where
  completions : List Completion
  validations : List VRecord
  profiles : List (Nat × Nat)

/-- Key predicate for a completion row. -/
def completionKeyIs (u h : Nat) (c : Completion) : Bool :=
  c.user == u && c.photohunt == h

/-- Key predicate for a validation row. -/
def vrecordKeyIs (u h : Nat) (v : VRecord) : Bool :=
  v.user == u && v.photohunt == h

/-- Number of completion rows for a (user, challenge) pair. -/
def countCompletions (cs : List Completion) (u h : Nat) : Nat :=
  (cs.filter (completionKeyIs u h)).length

/-- Number of validation rows for a (user, challenge) pair. -/
def countValidations (vs : List VRecord) (u h : Nat) : Nat :=
  (vs.filter (vrecordKeyIs u h)).length

/-- The user's aggregate completion counter
(`UserProfile.total_completions`, 0 when the profile row is absent, which is
also the value `get_or_create` initialises it to). -/
def profileTotal (ps : List (Nat × Nat)) (u : Nat) : Nat :=
  match ps.find? (fun p => p.1 == u) with
  | some p => p.2
  | none => 0

/-- `views.py` line 309/310: the existing completion for the pair, if any,
and whether it was previously valid. -/
def previouslyValid (l : Ledger) (u h : Nat) : Bool :=
  match l.completions.find? (completionKeyIs u h) with
  | some c => c.is_valid
  | none => false

/-- `views.py` lines 313–328: update the existing completion row in place,
or create a new one, from the verdict dict (`validation_result`).  The
similarity score is read by direct indexing (present on every interpreter
path) and the notes with `.get('notes', '')`. -/
def writeCompletion (cs : List Completion) (u h : Nat) (url : String) (vr : PyDict) :
    List Completion :=
  let score := dGet vr "similarity_score" .pnone
  let notes := dGet vr "notes" (.pstr "")
  match cs.find? (completionKeyIs u h) with
  | some _ =>
    cs.map (fun c =>
      if completionKeyIs u h c then
        { c with submitted_image := url, is_valid := true,
                 validation_score := score, validation_notes := notes }
      else c)
  | none =>
    cs ++ [{ user := u, photohunt := h, submitted_image := url, is_valid := true,
             validation_score := score, validation_notes := notes }]

/-- The validation row written by the transaction of `views.py`
lines 362–383 (both the `get_or_create` defaults and the unconditional
field update write the same values): durable reference and submitted URLs,
scores, prompt and raw response from the verdict dict, approved. -/
def mkVRecord (u h : Nat) (refDurable subDurable : String) (vr : PyDict) : VRecord :=
  { user := u, photohunt := h,
    reference_image_url := refDurable,
    submitted_image_url := subDurable,
    similarity_score := dGet vr "similarity_score" .pnone,
    confidence_score := dGet vr "confidence_score" .pnone,
    validation_prompt := dGet vr "prompt" .pnone,
    ai_response := dGet vr "ai_response" .pnone,
    is_approved := true }

/-- Create-or-update of the single validation row for the completion. -/
def writeValidation (vs : List VRecord) (u h : Nat) (refDurable subDurable : String)
    (vr : PyDict) : List VRecord :=
  match vs.find? (vrecordKeyIs u h) with
  | some _ =>
    vs.map (fun v => if vrecordKeyIs u h v then mkVRecord u h refDurable subDurable vr else v)
  | none => vs ++ [mkVRecord u h refDurable subDurable vr]

/-- `views.py` lines 386–389: `UserProfile.objects.get_or_create` followed by
an increment exactly when the completion was not previously valid. -/
def updProfiles (ps : List (Nat × Nat)) (u : Nat) (inc : Bool) : List (Nat × Nat) :=
  let ps1 := if (ps.find? (fun p => p.1 == u)).isSome then ps else ps ++ [(u, 0)]
  if inc then ps1.map (fun p => if p.1 == u then (p.1, p.2 + 1) else p) else ps1

/-! ### The Submission Orchestrator (`submit_photo` of api/views.py) -/

/-- The external inputs of one submission that are not part of the durable
state: the fresh object name, the comparator's behaviour on its single
call, whether the validation-record transaction succeeds, and the
configured storage domain / request base URL. -/
structure SubmitEnv where
  uuidStr : String
  llmRaises : Bool
  aiRaw : String
  valWriteOk : Bool
  host : String
  absBase : String

/-- The observable outcome of one `submit_photo` request: HTTP status and
body, the durable ledger and object-store state afterwards, and whether the
comparator was invoked. -/
structure SubmitResult where
  status : Nat
  body : PyDict
  ledger : Ledger
  storage : List String
  comparatorCalled : Bool

/-- The allowed upload extensions (`views.py` line 196). -/
def allowedExtensions : List String := ["jpg", "jpeg", "png", "gif", "webp"]

/-- `photo_file.name.split('.')[-1].lower()`: the (lowercased) suffix after
the last dot, or the whole name when it has no dot. -/
def fileExtOf (name : String) : String :=
  String.mk (((name.toList.reverse.takeWhile (fun c => c != '.')).reverse).map Char.toLower)

/-- `PhotoHunt.objects.get(id=..., is_active=True)`, as an option. -/
def findActiveChallenge (db : List Challenge) (cid : Nat) : Option Challenge :=
  db.find? (fun c => c.id == cid && c.is_active)

/-- `delete_object` on the modelled object store: remove the key. -/
def removeKey (storage : List String) (k : String) : List String :=
  storage.filter (fun x => x != k)

/-- The object key generated for the fresh upload
(`f"{folder}/{uuid.uuid4()}.{file_extension}"` with folder `submissions`). -/
def submittedKeyOf (env : SubmitEnv) (ext : String) : String :=
  "submissions/" ++ env.uuidStr ++ "." ++ ext

/-- The durable public URL returned by the upload. -/
def submittedUrlOf (env : SubmitEnv) (ext : String) : String :=
  "https://" ++ env.host ++ "/" ++ submittedKeyOf env ext

/-- The presigned GET URL handed to the comparator for the fresh upload
(`views.py` lines 219–220). -/
def submittedPresignedOf (env : SubmitEnv) (ext : String) : String :=
  generate_presigned_get_url env.host (extract_key_from_url (submittedUrlOf env ext)) 900

/-- The access URL handed to the comparator for the reference image
(`views.py` lines 257–265): presign when the stored reference is a remote
URL, an absolute local URL otherwise. -/
def referencePresignedOf (env : SubmitEnv) (ref : String) : String :=
  if ref != "" && (strStartsWith ref "http://" || strStartsWith ref "https://") then
    generate_presigned_get_url env.host (extract_key_from_url ref) 900
  else env.absBase ++ ref

/-- The verdict dict (`validation_result`) computed for a submission, as a
function of the challenge and the extension of the uploaded file. -/
def submitVerdict (env : SubmitEnv) (hunt : Challenge) (ext : String) : PyDict :=
  validate_photo env.llmRaises env.aiRaw
    (referencePresignedOf env hunt.reference_image)
    (submittedPresignedOf env ext)
    hunt.description

/-- `views.py` lines 299–304 / 353–358: pop the two signed-URL keys from the
verdict dict before returning it. -/
def stripSignedUrls (vr : PyDict) : PyDict :=
  dPop (dPop vr "reference_image_url") "submitted_image_url"

/-- The `PhotoHuntCompletionSerializer` rendering of a completion used in
the 201 body (identity/display columns — id, user_name, photohunt_name,
created_at — are outside this model); `submitted_image` is replaced by a
presigned URL for remote objects, per `get_submitted_image`. -/
def serializeCompletion (host : String) (c : Completion) : PyVal :=
  let img : PyVal :=
    if c.submitted_image == "" then .pnone
    else if strStartsWith c.submitted_image "http://"
        || strStartsWith c.submitted_image "https://" then
      .pstr (generate_presigned_get_url host (extract_key_from_url c.submitted_image) 3600)
    else .pstr c.submitted_image
  .pdict [("user", .pnum c.user), ("photohunt", .pnum c.photohunt),
          ("submitted_image", img),
          ("validation_score", c.validation_score),
          ("is_valid", .pbool c.is_valid),
          ("validation_notes", c.validation_notes)]

/-- Embedding of the `submit_photo` view, on the S3 success path of the
upload (the local-disk fallback of lines 224–254 is a separate storage
backend that no claim exercises).  The serializer's `ImageField` is assumed
to accept the upload (a well-formed image file); its
`validate_photohunt_id` hook queries for an active challenge and turns its
absence into a 400 field-error response before the view body runs.
Upload failure semantics aside, every branch of the view is modelled:
the 400 format check, the upload and the two presigned access URLs, the
comparator call, the rolled-back branch with its best-effort delete and
URL stripping, and the committed branch with completion write, old-object
delete, validation-record transaction and profile update.  When the
validation-record write fails (`env.valWriteOk = false`) the transaction
rolls that write back and the exception propagates out of the view: the
completion write, performed earlier outside the transaction, persists, the
profile update never runs, and the request ends as a 500 server error. -/
def submit_photo (db : List Challenge) (ledger : Ledger) (storage : List String)
    (env : SubmitEnv) (userId photohuntId : Nat) (photoName : String) : SubmitResult :=
  match findActiveChallenge db photohuntId with
  | none =>
    { status := 400,
      body := [("photohunt_id", .plist [.pstr "PhotoHunt not found or inactive"])],
      ledger := ledger, storage := storage, comparatorCalled := false }
  | some _ =>
    match findActiveChallenge db photohuntId with
    | none =>
      { status := 404, body := [("error", .pstr "PhotoHunt not found")],
        ledger := ledger, storage := storage, comparatorCalled := false }
    | some hunt =>
      let ext := fileExtOf photoName
      if !(allowedExtensions.contains ext) then
        { status := 400,
          body := [("error",
            .pstr "Unsupported file format. Please use JPG, PNG, GIF, or WebP.")],
          ledger := ledger, storage := storage, comparatorCalled := false }
      else
        let key := submittedKeyOf env ext
        let url := submittedUrlOf env ext
        let storage1 := key :: storage
        let vr := submitVerdict env hunt ext
        if !(pyTruthy (dGet vr "is_valid" (.pbool false))) then
          let storage2 := removeKey storage1 key
          { status := 200, body := [("validation", .pdict (stripSignedUrls vr))],
            ledger := ledger, storage := storage2, comparatorCalled := true }
        else
          let prevValid := previouslyValid ledger userId photohuntId
          let oldImage : Option String :=
            (ledger.completions.find? (completionKeyIs userId photohuntId)).map
              (fun c => c.submitted_image)
          let completions1 := writeCompletion ledger.completions userId photohuntId url vr
          let storage2 :=
            match oldImage with
            | some old =>
              if old != url && (strStartsWith old "http://" || strStartsWith old "https://") then
                removeKey storage1 (extract_key_from_url old)
              else storage1
            | none => storage1
          let stripped := stripSignedUrls vr
          if env.valWriteOk then
            let validations1 :=
              writeValidation ledger.validations userId photohuntId
                hunt.reference_image url stripped
            let profiles1 := updProfiles ledger.profiles userId (!prevValid)
            { status := 201,
              body := [("completion", serializeCompletion env.host
                         ((completions1.find? (completionKeyIs userId photohuntId)).getD
                           { user := userId, photohunt := photohuntId, submitted_image := url,
                             validation_score := .pnone, is_valid := true,
                             validation_notes := .pnone })),
                       ("validation", .pdict stripped)],
              ledger := { completions := completions1, validations := validations1,
                          profiles := profiles1 },
              storage := storage2, comparatorCalled := true }
          else
            { status := 500, body := [],
              ledger := { completions := completions1, validations := ledger.validations,
                          profiles := ledger.profiles },
              storage := storage2, comparatorCalled := true }

/-! ### Concrete demonstration fixtures shared by witnesses and
counterexamples -/

/-- An active challenge with a remote (object-store) reference image. -/
def demoChallenge : Challenge :=
  { id := 7, description := "", reference_image := "https://h/ref.jpg", is_active := true }

/-- A database holding just the demo challenge. -/
def demoDb : List Challenge := [demoChallenge]

/-- An empty ledger. -/
def emptyLedger : Ledger := { completions := [], validations := [], profiles := [] }

/-- A submission whose comparator answer is `"no"` (heuristically invalid). -/
def demoEnvInvalid : SubmitEnv :=
  { uuidStr := "u", llmRaises := false, aiRaw := "no", valWriteOk := true,
    host := "h", absBase := "http://b" }

/-- A submission whose comparator answer is `"match"` (heuristically valid). -/
def demoEnvValid : SubmitEnv :=
  { uuidStr := "u", llmRaises := false, aiRaw := "match", valWriteOk := true,
    host := "h", absBase := "http://b" }

/-- The valid submission again, but with a failing validation-record write. -/
def demoEnvNoWrite : SubmitEnv :=
  { uuidStr := "u", llmRaises := false, aiRaw := "match", valWriteOk := false,
    host := "h", absBase := "http://b" }

/-- A store that rejects any attempt carrying an ACL and accepts any
attempt without one. -/
def demoPut : Attempt → PutResult :=
  fun a =>
    match a.acl with
    | some _ => .clientError "AccessDenied"
    | none => .ok

/-! ## Theorems -/

/-- C3: for every raw comparator text on which the JSON parse attempt raises
(a `{...}` span is extracted but interpreting it fails), the Interpreter
returns the fixed Fallback Verdict — similarity 0.0, confidence 0.0,
valid false, notes "AI validation failed - manual review required", empty
match/difference lists — and in particular never treats such a response as
an approval. -/
theorem parse_ai_response_garbage_is_fallback (content : String) (span : List Char)
    (hspan : jsonSpan content.toList = some span)
    (hfail : interpretJson (String.mk span) = none) :
    parse_ai_response content = get_fallback_response .pnone .pnone ∧
    dGet (parse_ai_response content) "similarity_score" .pnone = .pnum 0 ∧
    dGet (parse_ai_response content) "confidence_score" .pnone = .pnum 0 ∧
    dGet (parse_ai_response content) "is_valid" .pnone = .pbool false ∧
    dGet (parse_ai_response content) "notes" .pnone =
      .pstr "AI validation failed - manual review required" ∧
    dGet (parse_ai_response content) "key_matches" .pnone = .plist [] ∧
    dGet (parse_ai_response content) "key_differences" .pnone = .plist [] := by
  have hmain : parse_ai_response content = get_fallback_response .pnone .pnone := by
    unfold parse_ai_response
    rw [hspan]
    show (match interpretJson (String.mk span) with
          | some d => d
          | none => get_fallback_response .pnone .pnone) =
        get_fallback_response .pnone .pnone
    rw [hfail]
  rw [hmain]
  exact ⟨rfl, rfl, rfl, rfl, rfl, rfl, rfl⟩

/-- C3 witness: the concrete garbage text `"{x}"` has a brace span whose
JSON interpretation fails, and the Interpreter returns the Fallback
Verdict on it. -/
theorem parse_ai_response_garbage_is_fallback_witness :
    jsonSpan (String.toList "\x7bx\x7d") = some (String.toList "\x7bx\x7d") ∧
    interpretJson (String.mk (String.toList "\x7bx\x7d")) = none ∧
    parse_ai_response "\x7bx\x7d" = get_fallback_response .pnone .pnone ∧
    dGet (parse_ai_response "\x7bx\x7d") "is_valid" .pnone = .pbool false :=
  ⟨rfl, rfl,
   (parse_ai_response_garbage_is_fallback "\x7bx\x7d" (String.toList "\x7bx\x7d") rfl rfl).1,
   (parse_ai_response_garbage_is_fallback "\x7bx\x7d" (String.toList "\x7bx\x7d")
     rfl rfl).2.2.2.1⟩

/-- C7 counterexample: on `"{x} match"` a `{...}` span exists and parsing it
fails, yet the Interpreter does NOT fall back to heuristic extraction as
the claim states: it returns the fixed Fallback Verdict, whose notes differ
from the heuristic's notes (the full raw text). -/
theorem parse_ai_response_parse_failure_not_heuristic :
    jsonSpan (String.toList "\x7bx\x7d match") = some (String.toList "\x7bx\x7d") ∧
    interpretJson "\x7bx\x7d" = none ∧
    dGet (parse_ai_response "\x7bx\x7d match") "notes" .pnone =
      .pstr "AI validation failed - manual review required" ∧
    dGet (parse_text_response "\x7bx\x7d match") "notes" .pnone =
      .pstr "\x7bx\x7d match" ∧
    parse_ai_response "\x7bx\x7d match" ≠ parse_text_response "\x7bx\x7d match" := by
  refine ⟨rfl, rfl, rfl, rfl, fun h => ?_⟩
  have h2 : PyVal.pstr "AI validation failed - manual review required" =
      PyVal.pstr "\x7bx\x7d match" := by
    calc PyVal.pstr "AI validation failed - manual review required"
        = dGet (parse_ai_response "\x7bx\x7d match") "notes" .pnone := rfl
      _ = dGet (parse_text_response "\x7bx\x7d match") "notes" .pnone := by rw [h]
      _ = .pstr "\x7bx\x7d match" := rfl
  injection h2 with h3
  exact absurd h3 (by decide)

/-- C7 amended: the heuristic extraction runs exactly when no `{...}` span
exists (a span whose parse fails yields the fixed Fallback Verdict
instead); on the heuristic path, notes are the full raw text, validity is
decided by the case-insensitive keyword sets, and a number found after
"similarity"/"confidence" is divided by 100 when it exceeds 1.0. -/
theorem parse_ai_response_heuristic_only_without_span (content : String) :
    (jsonSpan content.toList = none →
      parse_ai_response content = parse_text_response content ∧
      dGet (parse_text_response content) "notes" .pnone = .pstr content ∧
      dGet (parse_text_response content) "is_valid" .pnone =
        .pbool (containsAnyWord validWords (content.toList.map Char.toLower)) ∧
      (∀ q, searchScore (String.toList "similarity") content.toList = some q →
        dGet (parse_text_response content) "similarity_score" .pnone =
          .pnum (if 1 < q then q / 100 else q)) ∧
      (∀ q, searchScore (String.toList "confidence") content.toList = some q →
        dGet (parse_text_response content) "confidence_score" .pnone =
          .pnum (if 1 < q then q / 100 else q))) ∧
    (∀ span, jsonSpan content.toList = some span → interpretJson (String.mk span) = none →
      parse_ai_response content = get_fallback_response .pnone .pnone) := by
  constructor
  · intro hnospan
    refine ⟨?_, ?_, ?_, ?_, ?_⟩
    · unfold parse_ai_response
      rw [hnospan]
    · rfl
    · show PyVal.pbool
          (if containsAnyWord validWords (content.toList.map Char.toLower) then true
           else if containsAnyWord invalidWords (content.toList.map Char.toLower) then false
           else false) = _
      cases containsAnyWord validWords (content.toList.map Char.toLower) <;>
        cases containsAnyWord invalidWords (content.toList.map Char.toLower) <;> rfl
    · intro q hq
      show PyVal.pnum
          (match searchScore (String.toList "similarity") content.toList with
           | some q => if 1 < q then q / 100 else q
           | none => 1 / 2) = _
      rw [hq]
    · intro q hq
      show PyVal.pnum
          (match searchScore (String.toList "confidence") content.toList with
           | some q => if 1 < q then q / 100 else q
           | none => 1 / 2) = _
      rw [hq]
  · intro span hspan hfail
    unfold parse_ai_response
    rw [hspan]
    show (match interpretJson (String.mk span) with
          | some d => d
          | none => get_fallback_response .pnone .pnone) =
        get_fallback_response .pnone .pnone
    rw [hfail]

/-- Evaluation lemma: the captured digit string `"85"` denotes the rational
85. -/
theorem decimalToRat_eval_85 : decimalToRat ['8', '5'] = 85 := by
  show (digitsToNat ['8', '5'] : ℚ) + (digitsToNat [] : ℚ) / ((10 : ℚ) ^ (0 : ℕ)) = 85
  rw [show digitsToNat ['8', '5'] = 85 from by decide,
     show digitsToNat [] = 0 from rfl]
  norm_num

/-- Evaluation lemma: the heuristic score search finds 85 after
"similarity" in the demo text. -/
theorem searchScore_demo_85 :
    searchScore (String.toList "similarity")
      (String.toList "Similarity: 85 Confidence: 90 - looks like a match") = some 85 := by
  show some (decimalToRat ['8', '5']) = some 85
  rw [decimalToRat_eval_85]

/-- C7 amended witness: on `"Similarity: 85 Confidence: 90 - looks like a
match"` (no braces) the amended description evaluates as stated: heuristic
path, notes the raw text, valid by keyword, 85 and 90 scaled to 0.85 and
0.90. -/
theorem parse_ai_response_heuristic_only_without_span_witness :
    parse_ai_response "Similarity: 85 Confidence: 90 - looks like a match" =
      parse_text_response "Similarity: 85 Confidence: 90 - looks like a match" ∧
    dGet (parse_text_response "Similarity: 85 Confidence: 90 - looks like a match")
      "similarity_score" .pnone = .pnum (if 1 < (85 : ℚ) then 85 / 100 else 85) ∧
    dGet (parse_text_response "Similarity: 85 Confidence: 90 - looks like a match")
      "is_valid" .pnone = .pbool true :=
  ⟨((parse_ai_response_heuristic_only_without_span
      "Similarity: 85 Confidence: 90 - looks like a match").1 rfl).1,
   (((parse_ai_response_heuristic_only_without_span
      "Similarity: 85 Confidence: 90 - looks like a match").1 rfl).2.2.2.1 85
     searchScore_demo_85),
   rfl⟩

/-- C10: for every comparator text with no `{...}` span, a missing
"similarity" (respectively "confidence") number makes the heuristic path
return the default score 0.5 for that field, with notes equal to the full
raw text. -/
theorem parse_text_default_half (content : String)
    (hnospan : jsonSpan content.toList = none) :
    (searchScore (String.toList "similarity") content.toList = none →
      dGet (parse_ai_response content) "similarity_score" .pnone = .pnum (1 / 2)) ∧
    (searchScore (String.toList "confidence") content.toList = none →
      dGet (parse_ai_response content) "confidence_score" .pnone = .pnum (1 / 2)) ∧
    dGet (parse_ai_response content) "notes" .pnone = .pstr content := by
  have hmain : parse_ai_response content = parse_text_response content := by
    unfold parse_ai_response
    rw [hnospan]
  rw [hmain]
  refine ⟨?_, ?_, rfl⟩
  · intro hs
    show PyVal.pnum
        (match searchScore (String.toList "similarity") content.toList with
         | some q => if 1 < q then q / 100 else q
         | none => 1 / 2) = _
    rw [hs]
  · intro hs
    show PyVal.pnum
        (match searchScore (String.toList "confidence") content.toList with
         | some q => if 1 < q then q / 100 else q
         | none => 1 / 2) = _
    rw [hs]

/-- C10 witness: on the concrete text `"hello"` (no braces, no scores) both
scores are 0.5 and the notes are `"hello"`. -/
theorem parse_text_default_half_witness :
    dGet (parse_ai_response "hello") "similarity_score" .pnone = .pnum (1 / 2) ∧
    dGet (parse_ai_response "hello") "confidence_score" .pnone = .pnum (1 / 2) ∧
    dGet (parse_ai_response "hello") "notes" .pnone = .pstr "hello" :=
  ⟨(parse_text_default_half "hello" rfl).1 rfl,
   (parse_text_default_half "hello" rfl).2.1 rfl,
   (parse_text_default_half "hello" rfl).2.2⟩

/-- C8: when the first upload attempt carries the configured access-control
setting and fails with one of the enumerated permission/ACL-rejection
codes, `upload_file` retries exactly once, with no ACL and the identical
buffered payload bytes (visible in the recorded attempt trace), and
succeeds when that retry succeeds; a failed retry, or a first failure with
any other code, raises the StorageError. -/
theorem upload_file_acl_retry (put : Attempt → PutResult) (acl : String)
    (bytes : List Nat) (host folder uuid ext code : String)
    (hfail : put ⟨some acl, bytes⟩ = .clientError code) :
    (aclRetryCodes.contains code = true →
      (put ⟨none, bytes⟩ = .ok →
        upload_file put (some acl) bytes host folder uuid ext =
          .ok ("https://" ++ host ++ "/" ++ (folder ++ "/" ++ uuid ++ "." ++ ext),
               [⟨some acl, bytes⟩, ⟨none, bytes⟩])) ∧
      (∀ code2, put ⟨none, bytes⟩ = .clientError code2 →
        upload_file put (some acl) bytes host folder uuid ext =
          .error "Failed to upload file to S3")) ∧
    (aclRetryCodes.contains code = false →
      upload_file put (some acl) bytes host folder uuid ext =
        .error "Failed to upload file to S3") := by
  refine ⟨fun hcode => ⟨fun hok => ?_, fun code2 h2 => ?_⟩, fun hcode => ?_⟩
  · have hmem := List.mem_of_elem_eq_true hcode
    simp [upload_file, hfail, hmem, hok]
  · have hmem := List.mem_of_elem_eq_true hcode
    simp [upload_file, hfail, hmem, h2]
  · have hnotmem : code ∉ aclRetryCodes := fun hm => by
      have h2 : aclRetryCodes.contains code = true := List.elem_eq_true_of_mem hm
      rw [h2] at hcode
      exact Bool.noConfusion hcode
    simp [upload_file, hfail, hnotmem]

/-- C8 witness: against the ACL-rejecting store, the upload of the bytes
`[1, 2]` fails once with `AccessDenied` and then succeeds via the no-ACL
retry carrying the identical payload. -/
theorem upload_file_acl_retry_witness :
    demoPut ⟨some "public-read", [1, 2]⟩ = .clientError "AccessDenied" ∧
    aclRetryCodes.contains "AccessDenied" = true ∧
    demoPut ⟨none, [1, 2]⟩ = .ok ∧
    upload_file demoPut (some "public-read") [1, 2] "h" "submissions" "u" "jpg" =
      .ok ("https://h/submissions/u.jpg",
           [⟨some "public-read", [1, 2]⟩, ⟨none, [1, 2]⟩]) :=
  ⟨rfl, rfl, rfl,
   ((upload_file_acl_retry demoPut "public-read" [1, 2] "h" "submissions" "u" "jpg"
      "AccessDenied" rfl).1 rfl).1 rfl⟩

/-! ### Lemmas for the presign/extract round trip (C9) -/

/-- Dropping the scheme of an `https://` URL leaves the rest. -/
theorem dropScheme_https (cs : List Char) :
    dropScheme (String.toList "https://" ++ cs) = some cs := rfl

/-- `dropWhile` skips a block of characters that all satisfy the
predicate. -/
theorem dropWhile_append_all {p : Char → Bool} {l : List Char} (r : List Char)
    (h : ∀ c ∈ l, p c = true) :
    (l ++ r).dropWhile p = r.dropWhile p := by
  induction l with
  | nil => rfl
  | cons a t ih =>
    have ha := h a (List.mem_cons_self a t)
    simp only [List.cons_append, List.dropWhile, ha]
    exact ih (fun c hc => h c (List.mem_cons_of_mem a hc))

/-- `takeWhile` keeps exactly an initial block of satisfying characters
when the next character fails the predicate. -/
theorem takeWhile_append_stop {p : Char → Bool} {l : List Char} {c : Char} (r : List Char)
    (h : ∀ x ∈ l, p x = true) (hc : p c = false) :
    (l ++ c :: r).takeWhile p = l := by
  induction l with
  | nil => simp [List.takeWhile, hc]
  | cons a t ih =>
    have ha := h a (List.mem_cons_self a t)
    simp only [List.cons_append, List.takeWhile, ha]
    exact congrArg (a :: ·) (ih (fun x hx => h x (List.mem_cons_of_mem a hx)))

/-- Percent-encoding is the identity on a key made of unreserved characters
and slashes. -/
theorem percentEncodeKey_safe_eq (key : String)
    (h : ∀ c ∈ key.toList, isUrlSafeChar c = true) :
    percentEncodeKey key = key := by
  unfold percentEncodeKey
  have hfold : ∀ (l : List Char), (∀ c ∈ l, isUrlSafeChar c = true) →
      l.foldr (fun c acc =>
        if isUrlSafeChar c then c :: acc
        else '%' :: hexDigitChar (c.toNat / 16 % 16) :: hexDigitChar (c.toNat % 16) :: acc)
        [] = l := by
    intro l hl
    induction l with
    | nil => rfl
    | cons a t ih =>
      simp only [List.foldr, hl a (List.mem_cons_self a t), if_true]
      exact congrArg (a :: ·) (ih (fun c hc => hl c (List.mem_cons_of_mem a hc)))
  rw [hfold key.toList h]
  rfl

/-- A URL-safe character is neither `?` nor `#`. -/
theorem urlSafe_not_query {c : Char} (h : isUrlSafeChar c = true) :
    (c != '?' && c != '#') = true := by
  by_cases h1 : c = '?'
  · subst h1; exact absurd h (by decide)
  · by_cases h2 : c = '#'
    · subst h2; exact absurd h (by decide)
    · simp [h1, h2]

/-- The URL path of a presigned-style URL whose host has no slash and whose
key has no query/fragment characters is the slash-prefixed key. -/
theorem urlPathChars_presigned (hostL keyL restL : List Char)
    (hhost : ∀ c ∈ hostL, (c != '/') = true)
    (hkey : ∀ c ∈ keyL, (c != '?' && c != '#') = true) :
    urlPathChars (String.toList "https://" ++ (hostL ++ ('/' :: (keyL ++ ('?' :: restL))))) =
      '/' :: keyL := by
  unfold urlPathChars
  rw [dropScheme_https]
  show List.takeWhile (fun c => c != '?' && c != '#')
      (List.dropWhile (fun c => c != '/') (hostL ++ ('/' :: (keyL ++ ('?' :: restL))))) =
      '/' :: keyL
  rw [dropWhile_append_all _ hhost]
  have hdrop : List.dropWhile (fun c => c != '/') ('/' :: (keyL ++ ('?' :: restL))) =
      '/' :: (keyL ++ ('?' :: restL)) := by
    simp [List.dropWhile]
  rw [hdrop]
  show List.takeWhile (fun c => c != '?' && c != '#') ('/' :: (keyL ++ ('?' :: restL))) =
      '/' :: keyL
  have hhead : ((('/' : Char) != '?') && (('/' : Char) != '#')) = true := by decide
  simp only [List.takeWhile, hhead]
  exact congrArg ('/' :: ·) (takeWhile_append_stop _ hkey (by decide))

/-- C9: for every key of the shape produced by `upload`
(`folder/uuid.extension`, with each component made of unreserved URL
characters) and every ttl, extracting the key from the presigned GET URL
returns the original key. -/
theorem extract_key_presign_roundtrip (host folder uuid ext : String) (ttl : Nat)
    (hhost : ∀ c ∈ host.toList, (c != '/') = true)
    (hfolder : ∀ c ∈ folder.toList, isUrlSafeChar c = true)
    (huuid : ∀ c ∈ uuid.toList, isUrlSafeChar c = true)
    (hext : ∀ c ∈ ext.toList, isUrlSafeChar c = true) :
    extract_key_from_url
      (generate_presigned_get_url host (folder ++ "/" ++ uuid ++ "." ++ ext) ttl) =
      folder ++ "/" ++ uuid ++ "." ++ ext := by
  have hsplit : (folder ++ "/" ++ uuid ++ "." ++ ext).toList =
      folder.toList ++ ('/' :: (uuid.toList ++ ('.' :: ext.toList))) := by
    show folder.toList ++ ['/'] ++ uuid.toList ++ ['.'] ++ ext.toList = _
    simp [List.append_assoc]
  have hkeysafe : ∀ c ∈ (folder ++ "/" ++ uuid ++ "." ++ ext).toList,
      isUrlSafeChar c = true := by
    intro c hc
    rw [hsplit] at hc
    rcases List.mem_append.1 hc with h1 | h1
    · exact hfolder c h1
    · rcases List.mem_cons.1 h1 with h2 | h2
      · subst h2; decide
      · rcases List.mem_append.1 h2 with h3 | h3
        · exact huuid c h3
        · rcases List.mem_cons.1 h3 with h4 | h4
          · subst h4; decide
          · exact hext c h4
  have hpre : generate_presigned_get_url host (folder ++ "/" ++ uuid ++ "." ++ ext) ttl =
      "https://" ++ host ++ "/" ++ (folder ++ "/" ++ uuid ++ "." ++ ext) ++
        "?X-Amz-Algorithm=AWS4-HMAC-SHA256&X-Amz-Expires=" ++ toString ttl ++
        "&X-Amz-Signature=sig" := by
    unfold generate_presigned_get_url
    rw [percentEncodeKey_safe_eq _ hkeysafe]
  rw [hpre]
  unfold extract_key_from_url
  have hlist : (("https://" ++ host ++ "/" ++ (folder ++ "/" ++ uuid ++ "." ++ ext) ++
      "?X-Amz-Algorithm=AWS4-HMAC-SHA256&X-Amz-Expires=" ++ toString ttl ++
      "&X-Amz-Signature=sig") : String).toList =
      String.toList "https://" ++ (host.toList ++
        ('/' :: ((folder ++ "/" ++ uuid ++ "." ++ ext).toList ++
          ('?' :: (String.toList "X-Amz-Algorithm=AWS4-HMAC-SHA256&X-Amz-Expires=" ++
            ((toString ttl).toList ++ String.toList "&X-Amz-Signature=sig")))))) := by
    show String.toList "https://" ++ host.toList ++ ['/'] ++
        (folder ++ "/" ++ uuid ++ "." ++ ext).toList ++
        ('?' :: String.toList "X-Amz-Algorithm=AWS4-HMAC-SHA256&X-Amz-Expires=") ++
        (toString ttl).toList ++ String.toList "&X-Amz-Signature=sig" = _
    simp [List.append_assoc]
  rw [hlist]
  rw [urlPathChars_presigned host.toList (folder ++ "/" ++ uuid ++ "." ++ ext).toList _
    hhost (fun c hc => urlSafe_not_query (hkeysafe c hc))]
  rfl

/-- C9 witness: the concrete key `submissions/u.jpg` (as produced by an
upload under the `submissions` namespace) survives the presign/extract
round trip for ttl 900. -/
theorem extract_key_presign_roundtrip_witness :
    extract_key_from_url
      (generate_presigned_get_url "h" ("submissions" ++ "/" ++ "u" ++ "." ++ "jpg") 900) =
      "submissions" ++ "/" ++ "u" ++ "." ++ "jpg" :=
  extract_key_presign_roundtrip "h" "submissions" "u" "jpg" 900
    (by decide) (by decide) (by decide) (by decide)

/-! ### Lemmas about the ledger write operations -/

/-- One-step evaluation of `find?`. -/
theorem find?_cons_eval {α : Type} (p : α → Bool) (a : α) (l : List α) :
    (a :: l).find? p = if p a then some a else l.find? p := by
  cases hpa : p a
  · rw [List.find?_cons_of_neg _ (by simp [hpa])]
    simp
  · rw [List.find?_cons_of_pos _ hpa]
    simp

/-- Rewriting the rows with a match-preserving function does not change how
many rows match the key. -/
theorem length_filter_map_keep {α : Type} (l : List α) (p : α → Bool) (f : α → α)
    (hf : ∀ a, p (f a) = p a) :
    ((l.map f).filter p).length = (l.filter p).length := by
  induction l with
  | nil => rfl
  | cons a t ih =>
    rw [List.map_cons, List.filter_cons, List.filter_cons, hf a]
    cases p a
    · simp only [Bool.false_eq_true, if_false, ih]
    · simp only [if_true, List.length_cons, ih]

/-- Appending one matching row to a list with no matching rows gives exactly
one matching row. -/
theorem length_filter_append_one {α : Type} (l : List α) (p : α → Bool) (new : α)
    (hnew : p new = true) (hnil : l.filter p = []) :
    ((l ++ [new]).filter p).length = 1 := by
  rw [List.filter_append, hnil]
  simp [List.filter_cons, hnew]

/-- `find?` skips a block in which nothing matches. -/
theorem find?_append_none {α : Type} (l r : List α) (p : α → Bool)
    (h : l.find? p = none) : (l ++ r).find? p = r.find? p := by
  induction l with
  | nil => rfl
  | cons a t ih =>
    cases hpa : p a
    · rw [List.cons_append, List.find?_cons_of_neg _ (by simp [hpa])]
      rw [List.find?_cons_of_neg _ (by simp [hpa])] at h
      exact ih h
    · rw [List.find?_cons_of_pos _ hpa] at h
      exact Option.noConfusion h

/-- The exact-count consequence of a create-or-update with a key-preserving
update and a key-matching fresh row. -/
theorem countCompletions_writeCompletion (cs : List Completion) (u h : Nat)
    (url : String) (vr : PyDict)
    (hc : countCompletions cs u h ≤ 1) :
    countCompletions (writeCompletion cs u h url vr) u h = 1 := by
  unfold writeCompletion countCompletions
  cases hfind : cs.find? (completionKeyIs u h) with
  | none =>
    show ((cs ++ [_]).filter (completionKeyIs u h)).length = 1
    have hall : ∀ c ∈ cs, ¬ completionKeyIs u h c = true := by
      intro c hcmem
      exact List.find?_eq_none.mp hfind c hcmem
    have hnil : cs.filter (completionKeyIs u h) = [] := List.filter_eq_nil_iff.mpr hall
    exact length_filter_append_one cs (completionKeyIs u h) _ (by simp [completionKeyIs]) hnil
  | some c =>
    rw [length_filter_map_keep cs (completionKeyIs u h)
      (fun x => if completionKeyIs u h x then
        { x with submitted_image := url, is_valid := true,
                 validation_score := dGet vr "similarity_score" PyVal.pnone,
                 validation_notes := dGet vr "notes" (PyVal.pstr "") } else x)
      (fun a => by
        dsimp only
        by_cases hx : completionKeyIs u h a = true
        · rw [if_pos hx]
          rfl
        · rw [if_neg hx])]
    have hmem := List.mem_of_find?_eq_some hfind
    have hkey := List.find?_some hfind
    have hfil : c ∈ cs.filter (completionKeyIs u h) := List.mem_filter.mpr ⟨hmem, hkey⟩
    have hpos : 0 < (cs.filter (completionKeyIs u h)).length :=
      List.length_pos.mpr (List.ne_nil_of_mem hfil)
    unfold countCompletions at hc
    omega

/-- The same count consequence for the validation-record upsert. -/
theorem countValidations_writeValidation (vs : List VRecord) (u h : Nat)
    (refD subD : String) (vr : PyDict)
    (hv : countValidations vs u h ≤ 1) :
    countValidations (writeValidation vs u h refD subD vr) u h = 1 := by
  unfold writeValidation countValidations
  cases hfind : vs.find? (vrecordKeyIs u h) with
  | none =>
    show ((vs ++ [mkVRecord u h refD subD vr]).filter (vrecordKeyIs u h)).length = 1
    have hall : ∀ v ∈ vs, ¬ vrecordKeyIs u h v = true := by
      intro v hvmem
      exact List.find?_eq_none.mp hfind v hvmem
    have hnil : vs.filter (vrecordKeyIs u h) = [] := List.filter_eq_nil_iff.mpr hall
    exact length_filter_append_one vs (vrecordKeyIs u h) _
      (by simp [vrecordKeyIs, mkVRecord]) hnil
  | some v =>
    rw [length_filter_map_keep vs (vrecordKeyIs u h)
      (fun x => if vrecordKeyIs u h x then mkVRecord u h refD subD vr else x)
      (fun a => by
        dsimp only
        by_cases hx : vrecordKeyIs u h a = true
        · rw [if_pos hx, hx]
          simp [vrecordKeyIs, mkVRecord]
        · rw [if_neg hx])]
    have hmem := List.mem_of_find?_eq_some hfind
    have hkey := List.find?_some hfind
    have hfil : v ∈ vs.filter (vrecordKeyIs u h) := List.mem_filter.mpr ⟨hmem, hkey⟩
    have hpos : 0 < (vs.filter (vrecordKeyIs u h)).length :=
      List.length_pos.mpr (List.ne_nil_of_mem hfil)
    unfold countValidations at hv
    omega

/-- Incrementing the (first) profile row of a present user raises the read
counter by one. -/
theorem profileTotal_map_inc (ps : List (Nat × Nat)) (u : Nat)
    (hsome : (ps.find? (fun p => p.1 == u)).isSome = true) :
    profileTotal (ps.map (fun p => if p.1 == u then (p.1, p.2 + 1) else p)) u =
      profileTotal ps u + 1 := by
  induction ps with
  | nil => simp [List.find?] at hsome
  | cons a t ih =>
    cases ha : (a.1 == u)
    · have hmap : (a :: t).map (fun p => if p.1 == u then (p.1, p.2 + 1) else p) =
          a :: t.map (fun p => if p.1 == u then (p.1, p.2 + 1) else p) := by
        rw [List.map_cons, if_neg (by simp [ha])]
      rw [hmap]
      unfold profileTotal
      rw [find?_cons_eval, find?_cons_eval, if_neg (by simp [ha]), if_neg (by simp [ha])]
      have hsome2 : (t.find? (fun p => p.1 == u)).isSome = true := by
        rw [find?_cons_eval, if_neg (by simp [ha])] at hsome
        exact hsome
      have hrec := ih hsome2
      unfold profileTotal at hrec
      exact hrec
    · have hmap : (a :: t).map (fun p => if p.1 == u then (p.1, p.2 + 1) else p) =
          (a.1, a.2 + 1) :: t.map (fun p => if p.1 == u then (p.1, p.2 + 1) else p) := by
        rw [List.map_cons, if_pos ha]
      rw [hmap]
      unfold profileTotal
      rw [find?_cons_eval, find?_cons_eval, if_pos ha,
        if_pos (show (((a.1, a.2 + 1) : Nat × Nat).1 == u) = true from ha)]

/-- The counter update of the commit path: `get_or_create` plus a
conditional increment changes the read counter by exactly the increment. -/
theorem profileTotal_updProfiles (ps : List (Nat × Nat)) (u : Nat) (inc : Bool) :
    profileTotal (updProfiles ps u inc) u = profileTotal ps u + (if inc then 1 else 0) := by
  unfold updProfiles
  cases hfind : ps.find? (fun p => p.1 == u) with
  | some a =>
    rw [if_pos (show (some a).isSome = true from rfl)]
    cases inc
    · rfl
    · exact profileTotal_map_inc ps u (by rw [hfind]; rfl)
  | none =>
    rw [if_neg (show ¬(none : Option (Nat × Nat)).isSome = true by simp)]
    have happ : (ps ++ [((u : Nat), (0 : Nat))]).find? (fun p => p.1 == u) = some (u, 0) := by
      rw [find?_append_none ps [(u, 0)] _ hfind, find?_cons_eval]
      rw [if_pos (show (((u, 0) : Nat × Nat).1 == u) = true by simp)]
    cases inc
    · show profileTotal (ps ++ [(u, 0)]) u = profileTotal ps u + (if false then 1 else 0)
      unfold profileTotal
      rw [happ, hfind]
      rfl
    · show profileTotal ((ps ++ [(u, 0)]).map
          (fun (p : Nat × Nat) => if p.1 == u then (p.1, p.2 + 1) else p)) u =
        profileTotal ps u + (if true then 1 else 0)
      rw [profileTotal_map_inc (ps ++ [(u, 0)]) u (by rw [happ]; rfl)]
      unfold profileTotal
      rw [happ, hfind]
      rfl

/-- C1: for every submission whose verdict is valid (against an active
challenge, with an allowed extension, under normal ledger operation),
exactly one Completion and exactly one ValidationRecord exist afterwards
for the (user, challenge) pair, the response is 201, and the user's
aggregate completion counter grows by exactly 1 when the pair had no
previously-valid Completion and by 0 otherwise.  The count hypotheses are
the uniqueness invariants the database schema enforces
(`unique_together` on Completion and the one-to-one ValidationRecord). -/
theorem submit_photo_valid_commit (db : List Challenge) (ledger : Ledger)
    (storage : List String) (env : SubmitEnv) (userId photohuntId : Nat)
    (photoName : String) (hunt : Challenge)
    (hactive : findActiveChallenge db photohuntId = some hunt)
    (hext : allowedExtensions.contains (fileExtOf photoName) = true)
    (hvalid : pyTruthy (dGet (submitVerdict env hunt (fileExtOf photoName))
      "is_valid" (.pbool false)) = true)
    (hwrite : env.valWriteOk = true)
    (hc : countCompletions ledger.completions userId photohuntId ≤ 1)
    (hv : countValidations ledger.validations userId photohuntId ≤ 1) :
    (submit_photo db ledger storage env userId photohuntId photoName).status = 201 ∧
    countCompletions
      (submit_photo db ledger storage env userId photohuntId photoName).ledger.completions
      userId photohuntId = 1 ∧
    countValidations
      (submit_photo db ledger storage env userId photohuntId photoName).ledger.validations
      userId photohuntId = 1 ∧
    profileTotal
      (submit_photo db ledger storage env userId photohuntId photoName).ledger.profiles
      userId =
      profileTotal ledger.profiles userId +
        (if previouslyValid ledger userId photohuntId then 0 else 1) := by
  unfold submit_photo
  rw [hactive]
  simp only [hext, Bool.not_true, Bool.false_eq_true, if_false, hvalid, hwrite, if_true]
  refine ⟨trivial, ?_, ?_, ?_⟩
  · exact countCompletions_writeCompletion ledger.completions userId photohuntId _ _ hc
  · exact countValidations_writeValidation ledger.validations userId photohuntId _ _ _ hv
  · rw [profileTotal_updProfiles]
    cases previouslyValid ledger userId photohuntId <;> rfl

/-- C1 witness: a first valid submission ("match") by user 1 against the
demo challenge on an empty ledger yields 201, one completion, one
validation record, and a counter that went from 0 to 1. -/
theorem submit_photo_valid_commit_witness :
    (submit_photo demoDb emptyLedger [] demoEnvValid 1 7 "p.jpg").status = 201 ∧
    countCompletions
      (submit_photo demoDb emptyLedger [] demoEnvValid 1 7 "p.jpg").ledger.completions
      1 7 = 1 ∧
    countValidations
      (submit_photo demoDb emptyLedger [] demoEnvValid 1 7 "p.jpg").ledger.validations
      1 7 = 1 ∧
    profileTotal
      (submit_photo demoDb emptyLedger [] demoEnvValid 1 7 "p.jpg").ledger.profiles 1 =
      profileTotal emptyLedger.profiles 1 +
        (if previouslyValid emptyLedger 1 7 then 0 else 1) :=
  submit_photo_valid_commit demoDb emptyLedger [] demoEnvValid 1 7 "p.jpg" demoChallenge
    rfl rfl rfl rfl (by decide) (by decide)

/-- Removing a key from the modelled object store removes it. -/
theorem not_mem_removeKey (l : List String) (k : String) : k ∉ removeKey l k := by
  intro hmem
  have hp := (List.mem_filter.mp hmem).2
  simp at hp

/-- C2: for every submission whose verdict is invalid (against an active
challenge, with an allowed extension), the request returns 200, the ledger
is untouched, the freshly uploaded object is no longer in storage, and the
caller receives only the stripped `{validation: ...}` payload. -/
theorem submit_photo_invalid_rollback (db : List Challenge) (ledger : Ledger)
    (storage : List String) (env : SubmitEnv) (userId photohuntId : Nat)
    (photoName : String) (hunt : Challenge)
    (hactive : findActiveChallenge db photohuntId = some hunt)
    (hext : allowedExtensions.contains (fileExtOf photoName) = true)
    (hinvalid : pyTruthy (dGet (submitVerdict env hunt (fileExtOf photoName))
      "is_valid" (.pbool false)) = false) :
    (submit_photo db ledger storage env userId photohuntId photoName).status = 200 ∧
    (submit_photo db ledger storage env userId photohuntId photoName).ledger = ledger ∧
    submittedKeyOf env (fileExtOf photoName) ∉
      (submit_photo db ledger storage env userId photohuntId photoName).storage ∧
    (submit_photo db ledger storage env userId photohuntId photoName).body =
      [("validation",
        .pdict (stripSignedUrls (submitVerdict env hunt (fileExtOf photoName))))] := by
  unfold submit_photo
  rw [hactive]
  simp only [hext, Bool.not_true, Bool.false_eq_true, if_false, hinvalid, Bool.not_false,
    if_true]
  exact ⟨trivial, trivial, not_mem_removeKey _ _, trivial⟩

/-- C2 witness: the invalid demo submission ("no") returns 200 with only the
validation payload, leaves the empty ledger empty, and the fresh object key
is gone from storage. -/
theorem submit_photo_invalid_rollback_witness :
    (submit_photo demoDb emptyLedger [] demoEnvInvalid 1 7 "p.jpg").status = 200 ∧
    (submit_photo demoDb emptyLedger [] demoEnvInvalid 1 7 "p.jpg").ledger = emptyLedger ∧
    submittedKeyOf demoEnvInvalid (fileExtOf "p.jpg") ∉
      (submit_photo demoDb emptyLedger [] demoEnvInvalid 1 7 "p.jpg").storage ∧
    (submit_photo demoDb emptyLedger [] demoEnvInvalid 1 7 "p.jpg").body =
      [("validation",
        .pdict (stripSignedUrls (submitVerdict demoEnvInvalid demoChallenge
          (fileExtOf "p.jpg"))))] :=
  submit_photo_invalid_rollback demoDb emptyLedger [] demoEnvInvalid 1 7 "p.jpg"
    demoChallenge rfl rfl rfl

/-- C5 amended: a submission naming a missing or inactive challenge is
rejected by the serializer with HTTP 400 and a field error (the view's own
404 branch is unreachable without a concurrent database change), before any
storage or comparator I/O and without touching the ledger. -/
theorem submit_photo_missing_challenge_400 (db : List Challenge) (ledger : Ledger)
    (storage : List String) (env : SubmitEnv) (userId photohuntId : Nat)
    (photoName : String)
    (hmissing : findActiveChallenge db photohuntId = none) :
    (submit_photo db ledger storage env userId photohuntId photoName).status = 400 ∧
    (submit_photo db ledger storage env userId photohuntId photoName).body =
      [("photohunt_id", .plist [.pstr "PhotoHunt not found or inactive"])] ∧
    (submit_photo db ledger storage env userId photohuntId photoName).ledger = ledger ∧
    (submit_photo db ledger storage env userId photohuntId photoName).storage = storage ∧
    (submit_photo db ledger storage env userId photohuntId photoName).comparatorCalled =
      false := by
  unfold submit_photo
  rw [hmissing]
  exact ⟨rfl, rfl, rfl, rfl, rfl⟩

/-- C5 witness: a submission against an empty challenge table gets the 400
field-error response with no storage or comparator I/O. -/
theorem submit_photo_missing_challenge_400_witness :
    (submit_photo [] emptyLedger [] demoEnvValid 1 7 "p.jpg").status = 400 ∧
    (submit_photo [] emptyLedger [] demoEnvValid 1 7 "p.jpg").body =
      [("photohunt_id", .plist [.pstr "PhotoHunt not found or inactive"])] ∧
    (submit_photo [] emptyLedger [] demoEnvValid 1 7 "p.jpg").ledger = emptyLedger ∧
    (submit_photo [] emptyLedger [] demoEnvValid 1 7 "p.jpg").storage = [] ∧
    (submit_photo [] emptyLedger [] demoEnvValid 1 7 "p.jpg").comparatorCalled = false :=
  submit_photo_missing_challenge_400 [] emptyLedger [] demoEnvValid 1 7 "p.jpg" rfl

/-- C5 counterexample: at the concrete missing-challenge input the status is
400 — not 404 as the claim states. -/
theorem submit_photo_missing_challenge_not_404 :
    (submit_photo [] emptyLedger [] demoEnvValid 1 7 "p.jpg").status = 400 ∧
    (submit_photo [] emptyLedger [] demoEnvValid 1 7 "p.jpg").status ≠ 404 :=
  ⟨rfl, by decide⟩

/-- C6 amended: only the ValidationRecord write executes inside the atomic
transaction; the Completion create-or-update runs before it, outside any
transaction.  When the ValidationRecord write fails, the validation records
and the profile counter are unchanged and the exception surfaces as a 500,
but the Completion write has already persisted (the pair still has exactly
one, freshly updated, completion row). -/
theorem submit_photo_validation_write_failure (db : List Challenge) (ledger : Ledger)
    (storage : List String) (env : SubmitEnv) (userId photohuntId : Nat)
    (photoName : String) (hunt : Challenge)
    (hactive : findActiveChallenge db photohuntId = some hunt)
    (hext : allowedExtensions.contains (fileExtOf photoName) = true)
    (hvalid : pyTruthy (dGet (submitVerdict env hunt (fileExtOf photoName))
      "is_valid" (.pbool false)) = true)
    (hfail : env.valWriteOk = false)
    (hc : countCompletions ledger.completions userId photohuntId ≤ 1) :
    (submit_photo db ledger storage env userId photohuntId photoName).status = 500 ∧
    (submit_photo db ledger storage env userId photohuntId photoName).ledger.validations =
      ledger.validations ∧
    (submit_photo db ledger storage env userId photohuntId photoName).ledger.profiles =
      ledger.profiles ∧
    (submit_photo db ledger storage env userId photohuntId photoName).ledger.completions =
      writeCompletion ledger.completions userId photohuntId
        (submittedUrlOf env (fileExtOf photoName))
        (submitVerdict env hunt (fileExtOf photoName)) ∧
    countCompletions
      (submit_photo db ledger storage env userId photohuntId photoName).ledger.completions
      userId photohuntId = 1 := by
  unfold submit_photo
  rw [hactive]
  simp only [hext, Bool.not_true, Bool.false_eq_true, if_false, hvalid, hfail, if_true]
  refine ⟨trivial, trivial, trivial, trivial, ?_⟩
  exact countCompletions_writeCompletion ledger.completions userId photohuntId _ _ hc

/-- C6 witness: the failing-transaction demo submission instantiates the
amended statement. -/
theorem submit_photo_validation_write_failure_witness :
    (submit_photo demoDb emptyLedger [] demoEnvNoWrite 1 7 "p.jpg").status = 500 ∧
    (submit_photo demoDb emptyLedger [] demoEnvNoWrite 1 7 "p.jpg").ledger.validations =
      emptyLedger.validations ∧
    (submit_photo demoDb emptyLedger [] demoEnvNoWrite 1 7 "p.jpg").ledger.profiles =
      emptyLedger.profiles ∧
    (submit_photo demoDb emptyLedger [] demoEnvNoWrite 1 7 "p.jpg").ledger.completions =
      writeCompletion emptyLedger.completions 1 7
        (submittedUrlOf demoEnvNoWrite (fileExtOf "p.jpg"))
        (submitVerdict demoEnvNoWrite demoChallenge (fileExtOf "p.jpg")) ∧
    countCompletions
      (submit_photo demoDb emptyLedger [] demoEnvNoWrite 1 7 "p.jpg").ledger.completions
      1 7 = 1 :=
  submit_photo_validation_write_failure demoDb emptyLedger [] demoEnvNoWrite 1 7 "p.jpg"
    demoChallenge rfl rfl rfl rfl (by decide)

/-- C6 counterexample: on the concrete failing-transaction submission the
validation write is rolled back, yet the ledger is NOT unchanged — the pair
went from zero completions to one, refuting the claim that the Completion
write does not persist when the ValidationRecord write fails. -/
theorem submit_photo_ledger_changed_on_validation_failure :
    (submit_photo demoDb emptyLedger [] demoEnvNoWrite 1 7 "p.jpg").ledger.validations =
      emptyLedger.validations ∧
    countCompletions emptyLedger.completions 1 7 = 0 ∧
    countCompletions
      (submit_photo demoDb emptyLedger [] demoEnvNoWrite 1 7 "p.jpg").ledger.completions
      1 7 = 1 :=
  ⟨rfl, rfl, rfl⟩

/-- C4 (code evaluated at the failing input): the invalid demo submission
returns 200 with a `validation` payload whose key set is NOT limited to the
six documented fields — it retains `prompt` and `ai_response` — and the
`prompt` entry embeds the time-limited presigned URLs handed to the
comparator, whose query strings carry `X-Amz-Expires`. -/
theorem submit_photo_validation_payload_leaks_prompt :
    (submit_photo demoDb emptyLedger [] demoEnvInvalid 1 7 "p.jpg").status = 200 ∧
    (submit_photo demoDb emptyLedger [] demoEnvInvalid 1 7 "p.jpg").body =
      [("validation",
        .pdict (stripSignedUrls (submitVerdict demoEnvInvalid demoChallenge "jpg")))] ∧
    dKeys (stripSignedUrls (submitVerdict demoEnvInvalid demoChallenge "jpg")) =
      ["similarity_score", "confidence_score", "is_valid", "notes",
       "key_matches", "key_differences", "prompt", "ai_response"] ∧
    dGet (stripSignedUrls (submitVerdict demoEnvInvalid demoChallenge "jpg"))
      "prompt" .pnone =
      create_validation_prompt
        (generate_presigned_get_url "h" "ref.jpg" 900)
        (generate_presigned_get_url "h" "submissions/u.jpg" 900) "" ∧
    containsSub (String.toList "X-Amz-Expires")
      (String.toList (generate_presigned_get_url "h" "submissions/u.jpg" 900)) = true :=
  ⟨rfl, rfl, rfl, rfl, rfl⟩

end PhotoHunter
